import Mathlib

/-!
Verification of the XMODEM protocol handler in
`src/carveracontroller/XMODEM.py` (class `XMODEM`).

The Python source is shallowly embedded: bytes are `Nat` (0..255), byte
strings are `List Nat`, the byte transport (the `getc`/`putc` callables)
is a deterministic script of read results plus an output trace, and the
`send`/`recv` loops are fuelled recursive functions.  Fuel exhaustion is
`none`; every Python return value is modelled exactly (`send` returns
`Option Bool` for `True`/`False`/`None`, `recv` returns `Option Int` for
a byte count / `None` / `-1` / `0`).
-/

set_option maxRecDepth 8192

namespace XModem

/-- Protocol byte SOH (`b'\x01'`, line 104). -/
def SOH : Nat := 1
/-- Protocol byte STX (`b'\x02'`, line 105). -/
def STX : Nat := 2
/-- Protocol byte EOT (`b'\x04'`, line 106). -/
def EOT : Nat := 4
/-- Protocol byte ACK (`b'\x06'`, line 107). -/
def ACK : Nat := 6
/-- Protocol byte NAK (`b'\x15'`, line 109). -/
def NAK : Nat := 21
/-- Protocol byte CAN (`b'\x16'`, line 110). -/
def CAN : Nat := 22
/-- CRC-request byte (`b'C'`, line 111). -/
def CRCB : Nat := 67

/-- The 256-entry CRC table `XMODEM.crctable` (lines 151-184), verbatim. -/
def crctable : List Nat := [
  0x0000, 0x1021, 0x2042, 0x3063, 0x4084, 0x50a5, 0x60c6, 0x70e7,
  0x8108, 0x9129, 0xa14a, 0xb16b, 0xc18c, 0xd1ad, 0xe1ce, 0xf1ef,
  0x1231, 0x0210, 0x3273, 0x2252, 0x52b5, 0x4294, 0x72f7, 0x62d6,
  0x9339, 0x8318, 0xb37b, 0xa35a, 0xd3bd, 0xc39c, 0xf3ff, 0xe3de,
  0x2462, 0x3443, 0x0420, 0x1401, 0x64e6, 0x74c7, 0x44a4, 0x5485,
  0xa56a, 0xb54b, 0x8528, 0x9509, 0xe5ee, 0xf5cf, 0xc5ac, 0xd58d,
  0x3653, 0x2672, 0x1611, 0x0630, 0x76d7, 0x66f6, 0x5695, 0x46b4,
  0xb75b, 0xa77a, 0x9719, 0x8738, 0xf7df, 0xe7fe, 0xd79d, 0xc7bc,
  0x48c4, 0x58e5, 0x6886, 0x78a7, 0x0840, 0x1861, 0x2802, 0x3823,
  0xc9cc, 0xd9ed, 0xe98e, 0xf9af, 0x8948, 0x9969, 0xa90a, 0xb92b,
  0x5af5, 0x4ad4, 0x7ab7, 0x6a96, 0x1a71, 0x0a50, 0x3a33, 0x2a12,
  0xdbfd, 0xcbdc, 0xfbbf, 0xeb9e, 0x9b79, 0x8b58, 0xbb3b, 0xab1a,
  0x6ca6, 0x7c87, 0x4ce4, 0x5cc5, 0x2c22, 0x3c03, 0x0c60, 0x1c41,
  0xedae, 0xfd8f, 0xcdec, 0xddcd, 0xad2a, 0xbd0b, 0x8d68, 0x9d49,
  0x7e97, 0x6eb6, 0x5ed5, 0x4ef4, 0x3e13, 0x2e32, 0x1e51, 0x0e70,
  0xff9f, 0xefbe, 0xdfdd, 0xcffc, 0xbf1b, 0xaf3a, 0x9f59, 0x8f78,
  0x9188, 0x81a9, 0xb1ca, 0xa1eb, 0xd10c, 0xc12d, 0xf14e, 0xe16f,
  0x1080, 0x00a1, 0x30c2, 0x20e3, 0x5004, 0x4025, 0x7046, 0x6067,
  0x83b9, 0x9398, 0xa3fb, 0xb3da, 0xc33d, 0xd31c, 0xe37f, 0xf35e,
  0x02b1, 0x1290, 0x22f3, 0x32d2, 0x4235, 0x5214, 0x6277, 0x7256,
  0xb5ea, 0xa5cb, 0x95a8, 0x8589, 0xf56e, 0xe54f, 0xd52c, 0xc50d,
  0x34e2, 0x24c3, 0x14a0, 0x0481, 0x7466, 0x6447, 0x5424, 0x4405,
  0xa7db, 0xb7fa, 0x8799, 0x97b8, 0xe75f, 0xf77e, 0xc71d, 0xd73c,
  0x26d3, 0x36f2, 0x0691, 0x16b0, 0x6657, 0x7676, 0x4615, 0x5634,
  0xd94c, 0xc96d, 0xf90e, 0xe92f, 0x99c8, 0x89e9, 0xb98a, 0xa9ab,
  0x5844, 0x4865, 0x7806, 0x6827, 0x18c0, 0x08e1, 0x3882, 0x28a3,
  0xcb7d, 0xdb5c, 0xeb3f, 0xfb1e, 0x8bf9, 0x9bd8, 0xabbb, 0xbb9a,
  0x4a75, 0x5a54, 0x6a37, 0x7a16, 0x0af1, 0x1ad0, 0x2ab3, 0x3a92,
  0xfd2e, 0xed0f, 0xdd6c, 0xcd4d, 0xbdaa, 0xad8b, 0x9de8, 0x8dc9,
  0x7c26, 0x6c07, 0x5c64, 0x4c45, 0x3ca2, 0x2c83, 0x1ce0, 0x0cc1,
  0xef1f, 0xff3e, 0xcf5d, 0xdf7c, 0xaf9b, 0xbfba, 0x8fd9, 0x9ff8,
  0x6e17, 0x7e36, 0x4e55, 0x5e74, 0x2e93, 0x3eb2, 0x0ed1, 0x1ef0]

/-- `XMODEM.calc_checksum` (lines 675-689, Python 3 branch):
`(sum(data) + checksum) % 256`. -/
def calc_checksum (data : List Nat) (checksum : Nat) : Nat :=
  (data.sum + checksum) % 256

/-- One fold step of `XMODEM.calc_crc` (lines 702-704):
`crc = ((crc << 8) ^ crctable[((crc >> 8) ^ char) & 0xff]) & 0xffff`. -/
def crcStep (crc ch : Nat) : Nat :=
  ((crc <<< 8) ^^^ crctable.getD (((crc >>> 8) ^^^ ch) &&& 0xff) 0) &&& 0xffff

/-- `XMODEM.calc_crc` (lines 691-705): table-driven CRC over `data`
starting from `crc`, with the final `return crc & 0xffff`. -/
def calc_crc (data : List Nat) (crc : Nat) : Nat :=
  (data.foldl crcStep crc) &&& 0xffff

/-- Modelled from the spec: one MSB-first shift round of the reference
bitwise CCITT/XMODEM CRC with polynomial `0x1021` (spec section 4.1):
shift left one bit, XOR the polynomial in when the top bit (bit 15) was
set, keep 16 bits. -/
def crcRoundRef (c : Nat) : Nat :=
  if c.testBit 15 then ((c <<< 1) ^^^ 0x1021) % 65536 else (c <<< 1) % 65536

/-- `k` iterations of `crcRoundRef`. -/
def crcRounds : Nat → Nat → Nat
  | 0, c => c
  | k + 1, c => crcRounds k (crcRoundRef c)

/-- Modelled from the spec: the reference bitwise CCITT/XMODEM CRC
(spec section 4.1): each input byte is XORed into the high byte of the
16-bit register, followed by 8 MSB-first shift rounds. -/
def crc16_ref (data : List Nat) (crc : Nat) : Nat :=
  data.foldl (fun c b => crcRounds 8 (c ^^^ (b <<< 8))) crc

/-! ### CRC equivalence machinery -/

/-- XOR commutes with truncation to `n` bits. -/
lemma xor_mod_two_pow' (a b n : Nat) :
    (a ^^^ b) % 2 ^ n = a % 2 ^ n ^^^ b % 2 ^ n := by
  apply Nat.eq_of_testBit_eq
  intro i
  by_cases h : i < n <;> simp [Nat.testBit_mod_two_pow, Nat.testBit_xor, h]

/-- Left shift distributes over XOR. -/
lemma shiftLeft_xor_distrib (a b k : Nat) :
    (a ^^^ b) <<< k = a <<< k ^^^ b <<< k := by
  apply Nat.eq_of_testBit_eq
  intro i
  by_cases h : k ≤ i <;> simp [Nat.testBit_shiftLeft, Nat.testBit_xor, h]

/-- One reference shift round is GF(2)-linear in a low perturbation. -/
lemma crcRoundRef_xor (x m : Nat) (hm : m < 2 ^ 15) :
    crcRoundRef (x ^^^ m) = crcRoundRef x ^^^ (m <<< 1) % 65536 := by
  have hb : (x ^^^ m).testBit 15 = x.testBit 15 := by
    simp [Nat.testBit_xor, Nat.testBit_lt_two_pow hm]
  have h65536 : (65536 : Nat) = 2 ^ 16 := by norm_num
  unfold crcRoundRef
  rw [hb]
  by_cases h : x.testBit 15 = true
  · rw [if_pos h, if_pos h, shiftLeft_xor_distrib,
      show x <<< 1 ^^^ m <<< 1 ^^^ 0x1021 = (x <<< 1 ^^^ 0x1021) ^^^ m <<< 1 by
        rw [Nat.xor_assoc, Nat.xor_comm (m <<< 1), ← Nat.xor_assoc],
      h65536, xor_mod_two_pow']
  · rw [if_neg h, if_neg h, shiftLeft_xor_distrib, h65536, xor_mod_two_pow']

/-- `k` reference rounds are GF(2)-linear in a perturbation that stays
below bit 15 throughout. -/
lemma crcRounds_xor : ∀ k j x m : Nat, k + j = 16 → m < 2 ^ j →
    crcRounds k (x ^^^ m) = crcRounds k x ^^^ (m <<< k) % 65536 := by
  intro k
  induction k with
  | zero =>
    intro j x m hj hm
    have : m < 65536 := by
      have : j = 16 := by omega
      subst this
      simpa using hm
    simp [crcRounds, Nat.mod_eq_of_lt this]
  | succ k ih =>
    intro j x m hj hm
    have hj15 : j ≤ 15 := by omega
    have hm15 : m < 2 ^ 15 :=
      lt_of_lt_of_le hm (Nat.pow_le_pow_right (by norm_num) hj15)
    have hms : m <<< 1 < 2 ^ (j + 1) := by
      rw [Nat.shiftLeft_eq, pow_succ 2 j]
      exact (Nat.mul_lt_mul_right (by norm_num)).mpr hm
    have hms16 : m <<< 1 < 65536 :=
      lt_of_lt_of_le hms (by
        have : j + 1 ≤ 16 := by omega
        calc (2:Nat) ^ (j+1) ≤ 2 ^ 16 := Nat.pow_le_pow_right (by norm_num) this
        _ = 65536 := by norm_num)
    show crcRounds k (crcRoundRef (x ^^^ m)) = _
    rw [crcRoundRef_xor x m hm15, Nat.mod_eq_of_lt hms16,
      ih (j + 1) (crcRoundRef x) (m <<< 1) (by omega) hms]
    congr 1

/-- Splitting a 16-bit value at bit 8: XOR with a shifted byte only
touches the high byte. -/
lemma byte_split_xor (hh b l : Nat) (hl : l < 2 ^ 8) :
    (2 ^ 8 * hh + l) ^^^ 2 ^ 8 * b = 2 ^ 8 * (hh ^^^ b) + l := by
  apply Nat.eq_of_testBit_eq
  intro j
  rw [Nat.testBit_xor, Nat.testBit_mul_pow_two_add hh hl j,
    Nat.testBit_mul_pow_two_add (hh ^^^ b) hl j, Nat.testBit_mul_pow_two]
  by_cases h : j < 8
  · simp [h, show ¬ 8 ≤ j by omega]
  · simp [h, show 8 ≤ j by omega, Nat.testBit_xor]

/-- Every reference round yields a 16-bit value. -/
lemma crcRoundRef_lt (c : Nat) : crcRoundRef c < 65536 := by
  unfold crcRoundRef
  split <;> exact Nat.mod_lt _ (by norm_num)

/-- Reference rounds preserve 16-bitness. -/
lemma crcRounds_lt : ∀ k c, c < 65536 → crcRounds k c < 65536
  | 0, _, h => h
  | k + 1, c, _ => crcRounds_lt k _ (crcRoundRef_lt c)

/-- Each entry of `crctable` is the 8-round bitwise CRC of its index
byte shifted into the high byte. -/
lemma crctable_spec : ∀ i < 256, crctable.getD i 0 = crcRounds 8 (i <<< 8) := by
  decide

/-- One table-driven step of `calc_crc` agrees with the 8-round bitwise
reference step on 16-bit state and byte input. -/
lemma crcStep_eq_ref (c b : Nat) (hc : c < 65536) (hb : b < 256) :
    crcStep c b = crcRounds 8 (c ^^^ b <<< 8) := by
  have h65536 : (65536 : Nat) = 2 ^ 16 := by norm_num
  have h256 : (256 : Nat) = 2 ^ 8 := by norm_num
  have hhh : c >>> 8 < 2 ^ 8 := by
    rw [Nat.shiftRight_eq_div_pow]
    exact Nat.div_lt_of_lt_mul (by rw [← pow_add]; omega)
  have hd : c >>> 8 ^^^ b < 2 ^ 8 :=
    Nat.xor_lt_two_pow hhh (by omega)
  have hl : c % 2 ^ 8 < 2 ^ 8 := Nat.mod_lt _ (by norm_num)
  have hsplit : 2 ^ 8 * (c >>> 8) + c % 2 ^ 8 = c := by
    rw [Nat.shiftRight_eq_div_pow]
    exact Nat.div_add_mod c (2 ^ 8)
  have hidx : (c >>> 8 ^^^ b) &&& 0xff = c >>> 8 ^^^ b := by
    rw [show (0xff : Nat) = 2 ^ 8 - 1 by norm_num]
    exact Nat.and_pow_two_sub_one_of_lt_two_pow hd
  have hT := crctable_spec (c >>> 8 ^^^ b) hd
  have hrhs : c ^^^ b <<< 8 = 2 ^ 8 * (c >>> 8 ^^^ b) + c % 2 ^ 8 := by
    conv_lhs => rw [← hsplit]
    rw [Nat.shiftLeft_eq, Nat.mul_comm b]
    exact byte_split_xor _ _ _ hl
  have hsum : 2 ^ 8 * (c >>> 8 ^^^ b) + c % 2 ^ 8
      = 2 ^ 8 * (c >>> 8 ^^^ b) ^^^ c % 2 ^ 8 := by
    have := byte_split_xor 0 (c >>> 8 ^^^ b) (c % 2 ^ 8) hl
    simpa [Nat.xor_comm] using this.symm
  have hmask : (c % 2 ^ 8) <<< 8 < 65536 := by
    rw [Nat.shiftLeft_eq, h65536, show (16 : Nat) = 8 + 8 by norm_num, pow_add]
    exact (Nat.mul_lt_mul_right (by norm_num)).mpr hl
  have hinv := crcRounds_xor 8 8 (2 ^ 8 * (c >>> 8 ^^^ b)) (c % 2 ^ 8)
    (by norm_num) hl
  have hcrc_lt : crcRounds 8 (2 ^ 8 * (c >>> 8 ^^^ b)) < 65536 := by
    apply crcRounds_lt
    have h8 : (2:Nat) ^ 8 = 256 := by norm_num
    rw [h8]
    rw [h8] at hd
    omega
  have hcsh : c <<< 8 % 2 ^ 16 = (c % 2 ^ 8) <<< 8 := by
    rw [Nat.shiftLeft_eq, Nat.shiftLeft_eq,
      show (2:Nat) ^ 16 = 2 ^ 8 * 2 ^ 8 by norm_num,
      Nat.mul_mod_mul_right]
  unfold crcStep
  rw [hidx, hT,
    show (c >>> 8 ^^^ b) <<< 8 = 2 ^ 8 * (c >>> 8 ^^^ b) by
      rw [Nat.shiftLeft_eq]; ring]
  rw [hrhs, hsum, hinv, Nat.mod_eq_of_lt hmask]
  rw [show (0xffff : Nat) = 2 ^ 16 - 1 by norm_num,
    Nat.and_pow_two_sub_one_eq_mod]
  rw [xor_mod_two_pow', hcsh]
  rw [show crcRounds 8 (2 ^ 8 * (c >>> 8 ^^^ b)) % 2 ^ 16
      = crcRounds 8 (2 ^ 8 * (c >>> 8 ^^^ b)) from Nat.mod_eq_of_lt (h65536 ▸ hcrc_lt)]
  exact Nat.xor_comm _ _

/-- The table-driven fold agrees with the bitwise reference fold on byte
data and 16-bit seeds, and stays 16-bit. -/
lemma crc_foldl_eq : ∀ (data : List Nat) (seed : Nat), seed < 65536 →
    (∀ b ∈ data, b < 256) →
    data.foldl crcStep seed
      = data.foldl (fun c b => crcRounds 8 (c ^^^ b <<< 8)) seed ∧
    data.foldl crcStep seed < 65536
  | [], _, hs, _ => ⟨rfl, hs⟩
  | b :: rest, seed, hs, hd => by
    have hb : b < 256 := hd b (List.mem_cons_self ..)
    have hstep : crcStep seed b = crcRounds 8 (seed ^^^ b <<< 8) :=
      crcStep_eq_ref seed b hs hb
    have hxlt : seed ^^^ b <<< 8 < 65536 := by
      have h16 : (2:Nat) ^ 16 = 65536 := by norm_num
      have h2 : seed < 2 ^ 16 := by rw [h16]; exact hs
      have h3 : b <<< 8 < 2 ^ 16 := by
        rw [Nat.shiftLeft_eq, h16, show (2:Nat) ^ 8 = 256 by norm_num]
        omega
      have h4 := Nat.xor_lt_two_pow h2 h3
      rw [h16] at h4
      exact h4
    have hlt : crcStep seed b < 65536 := by
      rw [hstep]
      exact crcRounds_lt 8 _ hxlt
    have ih := crc_foldl_eq rest (crcStep seed b) hlt
      (fun x hx => hd x (List.mem_cons_of_mem _ hx))
    refine ⟨?_, ?_⟩
    · simp only [List.foldl_cons]
      rw [ih.1, hstep]
    · simp only [List.foldl_cons]
      exact ih.2

/-! ### Packet codec (from `send`, lines 322-327 and 384-402, and the
receive-side verification, lines 577-625 and 650-673) -/

/-- Python `data.ljust(width, pad)` on byte strings (line 324/326):
append `pad` up to `width`; a longer input is returned unchanged. -/
def ljustBytes (l : List Nat) (width pad : Nat) : List Nat :=
  l ++ List.replicate (width - l.length) pad

/-- `XMODEM._make_send_header` (lines 384-392): start byte (SOH for the
128-byte packet size, STX for the 8192-byte one — the method asserts the
size is one of these two), sequence byte and its complement
`0xff - sequence`. -/
def mkSendHeader (packet_size sequence : Nat) : List Nat :=
  (if packet_size = 128 then [SOH] else [STX]) ++ [sequence, 255 - sequence]

/-- The length marker prepended to the payload by `send` (lines 323-326):
one byte `len & 0xff` in SOH mode, two bytes `len >> 8, len & 0xff` in
STX mode. -/
def lenMark (is_stx n : Nat) : List Nat :=
  if is_stx = 0 then [n &&& 0xff] else [n >>> 8, n &&& 0xff]

/-- `XMODEM._make_send_checksum` (lines 394-402): two big-endian CRC
bytes in CRC mode, one additive-checksum byte otherwise. -/
def mkSendChecksum (crc_mode : Nat) (data : List Nat) : List Nat :=
  if crc_mode ≠ 0 then
    [calc_crc data 0 >>> 8, calc_crc data 0 &&& 0xff]
  else
    [calc_checksum data 0]

/-- The full wire packet emitted by `send` for one block (lines 322-332):
header, length marker, payload padded to `packet_size` with `pad`, then
the checksum/CRC trailer computed over marker+payload. -/
def encode (sequence : Nat) (content : List Nat) (packet_size pad crc_mode : Nat) :
    List Nat :=
  let is_stx := if packet_size > 255 then 1 else 0
  let body := lenMark is_stx content.length ++ ljustBytes content packet_size pad
  mkSendHeader packet_size sequence ++ body ++ mkSendChecksum crc_mode body

/-- `XMODEM._verify_recv_checksum` (lines 650-673): strip the 2-byte CRC
(resp. 1-byte checksum) trailer, recompute over the remainder, and
return the validity flag together with the stripped data.  (On inputs
shorter than the trailer the Python code would raise an IndexError;
missing bytes are read as 0 here, and every theorem below supplies
full-length packets.) -/
def verifyRecvChecksum (crc_mode : Nat) (data : List Nat) : Bool × List Nat :=
  if crc_mode ≠ 0 then
    let tail := data.drop (data.length - 2)
    let body := data.take (data.length - 2)
    ((tail.getD 0 0 <<< 8) + tail.getD 1 0 == calc_crc body 0, body)
  else
    let tail := data.drop (data.length - 1)
    let body := data.take (data.length - 1)
    (tail.getD 0 0 == calc_checksum body 0, body)

/-- The receive-side interpretation of one full packet, composed from
`recv`: accept a start byte SOH/STX (lines 525, 470-481), check the
sequence byte and the complement of its check byte against the expected
sequence (lines 577-590), verify the trailer (line 607), then extract
the declared length from the length marker and return that many payload
bytes (lines 624-625).  Any failed check yields `none`. -/
def decode (raw : List Nat) (crc_mode packet_size expected : Nat) :
    Option (List Nat) :=
  let is_stx := if packet_size > 255 then 1 else 0
  match raw with
  | start :: s1 :: s2 :: rest =>
    if (start = SOH ∨ start = STX) ∧ s1 = expected ∧ 255 - s2 = expected then
      match verifyRecvChecksum crc_mode rest with
      | (true, d) =>
        let dl := if is_stx = 1 then d.getD 0 0 <<< 8 ||| d.getD 1 0 else d.getD 0 0
        some ((d.drop (1 + is_stx)).take dl)
      | (false, _) => none
    else none
  | _ => none

/-- `calc_crc` always returns a 16-bit value (the final `& 0xffff`). -/
lemma calc_crc_lt (data : List Nat) (seed : Nat) : calc_crc data seed < 65536 := by
  unfold calc_crc
  exact lt_of_le_of_lt Nat.and_le_right (by norm_num)

/-- Reassembling the two big-endian CRC trailer bytes by the receiver's
`(hi << 8) + lo` recovers the CRC value. -/
lemma crc_trailer_recompose (c : Nat) : (c >>> 8) <<< 8 + (c &&& 0xff) = c := by
  rw [show (0xff : Nat) = 2 ^ 8 - 1 by norm_num, Nat.and_pow_two_sub_one_eq_mod,
    Nat.shiftRight_eq_div_pow, Nat.shiftLeft_eq, Nat.mul_comm]
  exact Nat.div_add_mod c (2 ^ 8)

/-- Reassembling the two length-marker bytes by the receiver's
`(hi << 8) | lo` recovers the declared length. -/
lemma lor_recompose (n : Nat) : (n >>> 8) <<< 8 ||| (n &&& 0xff) = n := by
  have h255 : ∀ j : Nat, Nat.testBit 255 j = decide (j < 8) := by
    intro j
    rw [show (255 : Nat) = 2 ^ 8 - 1 by norm_num, Nat.testBit_two_pow_sub_one]
  apply Nat.eq_of_testBit_eq
  intro i
  by_cases h : 8 ≤ i
  · simp [Nat.testBit_or, Nat.testBit_shiftLeft, Nat.testBit_shiftRight,
      Nat.testBit_and, h255, h,
      show 8 + (i - 8) = i by omega, show ¬ i < 8 by omega]
  · simp [Nat.testBit_or, Nat.testBit_shiftLeft, Nat.testBit_shiftRight,
      Nat.testBit_and, h255, h, show i < 8 by omega]

/-- The receiver's trailer verification accepts exactly the trailer the
sender computes over the same marker+payload region, and returns that
region. -/
lemma verify_append_checksum (crc_mode : Nat) (body : List Nat) :
    verifyRecvChecksum crc_mode (body ++ mkSendChecksum crc_mode body)
      = (true, body) := by
  by_cases h : crc_mode ≠ 0
  · have hlen : (body ++ mkSendChecksum crc_mode body).length = body.length + 2 := by
      simp [mkSendChecksum, h]
    unfold verifyRecvChecksum
    rw [if_pos h, hlen, Nat.add_sub_cancel, List.drop_left' rfl, List.take_left' rfl]
    unfold mkSendChecksum
    rw [if_pos h]
    simp only [List.getD_cons_zero, List.getD_cons_succ]
    rw [crc_trailer_recompose]
    simp
  · have hlen : (body ++ mkSendChecksum crc_mode body).length = body.length + 1 := by
      simp [mkSendChecksum, h]
    unfold verifyRecvChecksum
    rw [if_neg h, hlen, Nat.add_sub_cancel, List.drop_left' rfl, List.take_left' rfl]
    unfold mkSendChecksum
    rw [if_neg h]
    simp

/-- The marker+payload region of an encoded packet: length marker
followed by the padded payload (the `data` value of lines 323-326 after
prepending the length bytes). -/
def packetBody (content : List Nat) (packet_size pad : Nat) : List Nat :=
  lenMark (if packet_size > 255 then 1 else 0) content.length
    ++ ljustBytes content packet_size pad

/-- C1: Codec round-trip — for every content buffer with
`0 ≤ len(content) ≤ block_capacity` (capacity 128 or 8192, the two sizes
`send` supports), every sequence in 0..255 and both integrity modes,
decoding the packet produced by `encode` with the same mode and expected
sequence succeeds (start byte, sequence pair and trailer all verify) and
recovers exactly the original content bytes. -/
theorem C1_codec_roundtrip (content : List Nat) (packet_size pad crc_mode sequence : Nat)
    (hps : packet_size = 128 ∨ packet_size = 8192)
    (hlen : content.length ≤ packet_size) (hseq : sequence ≤ 255) :
    decode (encode sequence content packet_size pad crc_mode) crc_mode packet_size sequence
      = some content := by
  rcases hps with h | h
  · subst h
    have hmask : content.length &&& 255 = content.length := by
      rw [show (255 : Nat) = 2 ^ 8 - 1 by norm_num]
      refine Nat.and_pow_two_sub_one_of_lt_two_pow ?_
      have h256 : (2:Nat) ^ 8 = 256 := by norm_num
      omega
    unfold encode decode
    norm_num [mkSendHeader, SOH, STX]
    refine ⟨by omega, ?_⟩
    rw [← List.append_assoc, verify_append_checksum]
    simp only [lenMark, if_pos rfl, List.singleton_append]
    simp [hmask, ljustBytes, List.take_left]
  · subst h
    unfold encode decode
    norm_num [mkSendHeader, SOH, STX]
    refine ⟨by omega, ?_⟩
    rw [← List.append_assoc, verify_append_checksum]
    simp only [lenMark]
    norm_num
    rw [lor_recompose]
    simp [ljustBytes, List.take_left]

/-- Witness for C1: concrete round-trip in CRC mode, 128-byte blocks. -/
theorem C1_codec_roundtrip_witness :
    ((128 : Nat) = 128 ∨ (128 : Nat) = 8192) ∧
    ([10, 20, 250] : List Nat).length ≤ 128 ∧ (5 : Nat) ≤ 255 ∧
    decode (encode 5 [10, 20, 250] 128 26 1) 1 128 5 = some [10, 20, 250] :=
  ⟨Or.inl rfl, by decide, by decide,
    C1_codec_roundtrip [10, 20, 250] 128 26 1 5 (Or.inl rfl) (by decide) (by decide)⟩

/-- C6: CRC-16 bit-exactness — for every byte buffer and every 16-bit
seed, the table-driven `calc_crc` equals the reference bitwise
CCITT/XMODEM CRC (`crc16_ref`, polynomial 0x1021, MSB-first, each byte
XORed into the high CRC byte), returns a value in 0..65535, and every
entry of the 256-entry table equals the bitwise CRC of its index byte. -/
theorem C6_crc_bit_exact (data : List Nat) (seed : Nat)
    (hdata : ∀ b ∈ data, b < 256) (hseed : seed < 65536) :
    calc_crc data seed = crc16_ref data seed ∧
    calc_crc data seed < 65536 ∧
    ∀ i < 256, crctable.getD i 0 = crc16_ref [i] 0 := by
  have h := crc_foldl_eq data seed hseed hdata
  refine ⟨?_, calc_crc_lt data seed, ?_⟩
  · unfold calc_crc
    rw [show (0xffff : Nat) = 2 ^ 16 - 1 by norm_num,
      Nat.and_pow_two_sub_one_of_lt_two_pow (by
        have h16 : (2:Nat) ^ 16 = 65536 := by norm_num
        rw [h16]
        exact h.2)]
    exact h.1
  · intro i hi
    rw [crctable_spec i hi]
    simp only [crc16_ref, List.foldl_cons, List.foldl_nil, Nat.zero_xor]

/-- Witness for C6 at the classic check vector, the digits 1-9
(CRC 0x31C3). -/
theorem C6_crc_bit_exact_witness :
    (∀ b ∈ [49, 50, 51, 52, 53, 54, 55, 56, 57], b < 256) ∧ (0 : Nat) < 65536 ∧
    calc_crc [49, 50, 51, 52, 53, 54, 55, 56, 57] 0
      = crc16_ref [49, 50, 51, 52, 53, 54, 55, 56, 57] 0 :=
  ⟨by decide, by decide,
    (C6_crc_bit_exact [49, 50, 51, 52, 53, 54, 55, 56, 57] 0 (by decide) (by decide)).1⟩

/-- C8 counterexample: the trailer of a concrete encoded packet is NOT
the checksum of the post-length-marker region only (the padded payload
without the marker byte), refuting the claim as stated. -/
theorem C8_counterexample :
    (encode 0 [0] 128 26 0).drop 132 ≠ mkSendChecksum 0 (ljustBytes [0] 128 26) := by
  decide

/-- C8 amended: the trailer of every encoded packet is computed over the
length-marker-plus-padded-payload region (the marker is included), and
the receiver's `_verify_recv_checksum` recomputes and verifies the
trailer over exactly that same region, returning it on success. -/
theorem C8_trailer_region (content : List Nat) (packet_size pad crc_mode sequence : Nat) :
    encode sequence content packet_size pad crc_mode
      = mkSendHeader packet_size sequence ++ packetBody content packet_size pad
        ++ mkSendChecksum crc_mode (packetBody content packet_size pad) ∧
    verifyRecvChecksum crc_mode (packetBody content packet_size pad
        ++ mkSendChecksum crc_mode (packetBody content packet_size pad))
      = (true, packetBody content packet_size pad) :=
  ⟨rfl, verify_append_checksum _ _⟩

/-! ### Transport model

The `getc`/`putc` callables are modelled by a deterministic transport: a
script of read results (one entry per `getc` call, `none` = timeout),
an output trace of all bytes written, a log of requested read sizes,
and the bytes written to the local data stream.  Writes always succeed
(the `putc`-failure branch of `recv`, lines 452-463, is never taken). -/

/-- The transport and stream state owned by one protocol role. -/
structure Chan where
  script : List (Option (List Nat))
  out : List Nat
  reads : List Nat
  sink : List Nat
deriving DecidableEq, Repr

/-- One `getc(n, ...)` call: pop the next scripted result (timeout when
the script is exhausted) and log the requested size. -/
def chanGet (n : Nat) (s : Chan) : Option (List Nat) × Chan :=
  match s.script with
  | [] => (none, { s with reads := s.reads ++ [n] })
  | e :: rest => (e, { s with script := rest, reads := s.reads ++ [n] })

/-- One `putc(bs, ...)` call (always accepted). -/
def chanPut (bs : List Nat) (s : Chan) : Chan :=
  { s with out := s.out ++ bs }

/-- One `stream.write(bs)` call on the receive-side sink. -/
def sinkWrite (bs : List Nat) (s : Chan) : Chan :=
  { s with sink := s.sink ++ bs }

/-- `XMODEM.abort` (lines 198-208) with its default `count=2`: two
single-CAN writes. -/
def abortSeq (s : Chan) : Chan := chanPut [CAN] (chanPut [CAN] s)

/-- Remaining script and number of 1-byte reads performed by the drain
loop `while True: if self.getc(1, timeout) == None: break` (lines
566-568 and 637-639): reads until a timeout.  An empty read
(`b'' != None`) does not stop it. -/
def drainU : List (Option (List Nat)) → List (Option (List Nat)) × Nat
  | [] => ([], 1)
  | none :: rest => (rest, 1)
  | some _ :: rest =>
    let (r, k) := drainU rest
    (r, k + 1)

/-- The drain-until-timeout loop (lines 566-568 and 637-639) acting on
the transport state. -/
def drainUntilNone (s : Chan) : Chan :=
  { s with script := (drainU s.script).1,
           reads := s.reads ++ List.replicate (drainU s.script).2 1 }

/-- Remaining script and number of 1-byte reads performed by the drain
loop `while self.getc(1, timeout): pass` (lines 304-305, 519-520 and
619-620): reads until a falsy result (`None` or empty bytes). -/
def drainT : List (Option (List Nat)) → List (Option (List Nat)) × Nat
  | [] => ([], 1)
  | none :: rest => (rest, 1)
  | some [] :: rest => (rest, 1)
  | some (_ :: _) :: rest =>
    let (r, k) := drainT rest
    (r, k + 1)

/-- The drain-while-truthy loop (lines 304-305, 519-520 and 619-620)
acting on the transport state. -/
def drainTruthy (s : Chan) : Chan :=
  { s with script := (drainT s.script).1,
           reads := s.reads ++ List.replicate (drainT s.script).2 1 }

/-- The two supported block-size modes (`'xmodem'`/`'xmodem8k'`); any
other mode string raises `ValueError` in both roles (lines 241-248 and
499-506) and is outside this model. -/
inductive Mode
  | xmodem
  | xmodem8k
deriving DecidableEq, Repr

/-- The packet-size table `dict(xmodem=128, xmodem8k=8192)` (lines
242-245 and 500-503). -/
def packetSize : Mode → Nat
  | .xmodem => 128
  | .xmodem8k => 8192

/-! ### Receiver state machine (`XMODEM.recv`, lines 404-648) -/

/-- Result of the receiver's start-sequence negotiation
(lines 439-491). -/
inductive NegoR
  | fail (s : Chan)
  | ok (mode : Mode) (modeSet : Bool) (crc_mode : Nat) (char : Option (List Nat)) (s : Chan)
deriving DecidableEq, Repr

/-- The receiver's start-sequence loop (lines 439-491): request CRC mode
while `error_count < retry // 2`, afterwards fall back to NAK; abort
after `retry` errors; a start byte locks the mode when `mode_set` is
still false; two CANs cancel. -/
def recvNegotiate (retry : Nat) :
    Nat → Nat → Nat → Nat → Mode → Bool → Chan → Option NegoR
  | 0, _, _, _, _, _, _ => none
  | fuel + 1, error_count, cancel, crc_mode, mode, modeSet, s =>
    if error_count ≥ retry then some (.fail (abortSeq s))
    else
      let (crc_mode, s) :=
        if crc_mode ≠ 0 ∧ error_count < retry / 2 then (crc_mode, chanPut [CRCB] s)
        else (0, chanPut [NAK] s)
      match chanGet 1 s with
      | (none, s) =>
        recvNegotiate retry fuel (error_count + 1) cancel crc_mode mode modeSet s
      | (some c, s) =>
        if c = [SOH] then
          some (.ok (if modeSet then mode else .xmodem) true crc_mode (some c) s)
        else if c = [STX] then
          some (.ok (if modeSet then mode else .xmodem8k) true crc_mode (some c) s)
        else if c = [CAN] then
          if cancel ≠ 0 then some (.fail s)
          else recvNegotiate retry fuel error_count 1 crc_mode mode modeSet s
        else
          recvNegotiate retry fuel (error_count + 1) cancel crc_mode mode modeSet s

/-- Result of the receiver's start-of-block dispatch loop. -/
inductive DispR
  | ret (v : Option Int) (s : Chan)
  | go (s : Chan)
deriving DecidableEq, Repr

/-- The receiver's inner start-of-block loop (lines 524-571): SOH/STX
proceeds to the block body; EOT ACKs and returns the byte count; a CAN
with the pending-cancel flag set returns `None` (note the flag is set
and then the same unconsumed `char` is re-examined on the next
iteration); a timeout or junk byte counts an error, aborting past
`retry`, junk additionally drains input and NAKs. -/
def recvDispatch (retry income : Nat) :
    Nat → Option (List Nat) → Nat → Nat → Chan → Option DispR
  | 0, _, _, _, _ => none
  | fuel + 1, char, error_count, cancel, s =>
    if char = some [SOH] ∨ char = some [STX] then some (.go s)
    else if char = some [EOT] then some (.ret (some (income : Int)) (chanPut [ACK] s))
    else if char = some [CAN] then
      if cancel ≠ 0 then some (.ret none s)
      else recvDispatch retry income fuel char error_count 1 s
    else if char = none then
      if error_count + 1 > retry then some (.ret none (abortSeq s))
      else
        let (c, s) := chanGet 1 s
        recvDispatch retry income fuel c (error_count + 1) cancel s
    else
      if error_count + 1 > retry then some (.ret none (abortSeq s))
      else
        let s := drainUntilNone s
        let s := chanPut [NAK] s
        let (c, s) := chanGet 1 s
        recvDispatch retry income fuel c (error_count + 1) cancel s

/-- The receiver's purge/retransmission-request step (lines 636-648):
drain input until a timeout, decrement the remaining-retransmissions
counter (abort and return `None` when it runs out), send NAK, read the
next start byte and re-enter the per-block loop (`loop`). -/
def recvNakStep (loop : Option (List Nat) → Nat → Chan → Option (Option Int × Chan))
    (retrans : Nat) (s : Chan) : Option (Option Int × Chan) :=
  let s := drainUntilNone s
  if retrans - 1 ≤ 0 then some (none, abortSeq s)
  else
    let s := chanPut [NAK] s
    let (c, s) := chanGet 1 s
    loop c (retrans - 1) s

/-- The receiver's per-block loop (lines 514-648): user-cancel check,
start-byte dispatch, sequence-pair check (draining the block body on
mismatch, line 597), body read and trailer verification, the block-0
content-hash short-circuit (lines 613-621), the append/ACK path (lines
622-633), and the purge/NAK retransmission-request step. -/
def recvLoop (retry packet_size is_stx crc_mode : Nat) (md5 : List Nat) (canceled : Bool) :
    Nat → Option (List Nat) → Nat → Nat → Nat → Nat → Bool → Chan →
    Option (Option Int × Chan)
  | 0, _, _, _, _, _, _, _ => none
  | fuel + 1, char, sequence, income, success_count, retrans, md5Received, s =>
    let nak := recvNakStep (fun c retrans s =>
      recvLoop retry packet_size is_stx crc_mode md5 canceled
        fuel c sequence income success_count retrans md5Received s)
    if canceled then
      let s := chanPut [CAN] (chanPut [CAN] (chanPut [CAN] s))
      some (some (-1), drainTruthy s)
    else
      match recvDispatch retry income (retry + 4) char 0 0 s with
      | none => none
      | some (.ret v s) => some (v, s)
      | some (.go s) =>
        match chanGet 1 s with
        | (none, s) =>
          let (_, s) := chanGet (2 + packet_size + 1 + crc_mode) s
          nak retrans s
        | (some l1, s) =>
          match chanGet 1 s with
          | (none, s) =>
            let (_, s) := chanGet (2 + packet_size + 1 + crc_mode) s
            nak retrans s
          | (some l2, s) =>
            if l1.headD 0 = 255 - l2.headD 0 ∧ l1.headD 0 = sequence then
              match chanGet (1 + is_stx + packet_size + 1 + crc_mode) s with
              | (none, s) => nak retrans s
              | (some d, s) =>
                match verifyRecvChecksum crc_mode d with
                | (true, d) =>
                  if sequence = 0 ∧ md5Received = false then
                    if md5 = (d.drop (1 + is_stx)).take 32 then
                      let s := chanPut [CAN] (chanPut [CAN] (chanPut [CAN] s))
                      some (some 0, drainTruthy s)
                    else
                      let s := chanPut [ACK] s
                      let (c, s) := chanGet 1 s
                      recvLoop retry packet_size is_stx crc_mode md5 canceled
                        fuel c ((sequence + 1) % 256) income success_count
                        (retry + 1) true s
                  else
                    let income := income + (d.length - 1 - is_stx)
                    let dl := if is_stx = 1 then d.getD 0 0 <<< 8 ||| d.getD 1 0
                              else d.getD 0 0
                    let s := sinkWrite ((d.drop (1 + is_stx)).take dl) s
                    let s := chanPut [ACK] s
                    let (c, s) := chanGet 1 s
                    recvLoop retry packet_size is_stx crc_mode md5 canceled
                      fuel c ((sequence + 1) % 256) income (success_count + 1)
                      (retry + 1) md5Received s
                | (false, _) => nak retrans s
            else
              let (_, s) := chanGet (2 + packet_size + 1 + crc_mode) s
              nak retrans s

/-- `XMODEM.recv` (lines 404-648): negotiation followed by the per-block
loop; returns the Python return value together with the session's final
`mode`/`mode_set` fields and the transport state.  (`fuel` bounds the
number of block iterations; the progress callback is omitted.) -/
def recvFull (retry crc_mode : Nat) (md5 : List Nat) (mode : Mode)
    (modeSet canceled : Bool) (fuel : Nat) (s : Chan) :
    Option (Option Int × Mode × Bool × Chan) :=
  match recvNegotiate retry (2 * retry + 4) 0 0 crc_mode mode modeSet s with
  | none => none
  | some (.fail s) => some (none, mode, modeSet, s)
  | some (.ok mode modeSet crc_mode char s) =>
    let packet_size := packetSize mode
    let is_stx := if packet_size > 255 then 1 else 0
    match recvLoop retry packet_size is_stx crc_mode md5 canceled
        fuel char 0 0 0 (retry + 1) false s with
    | none => none
    | some (v, s) => some (v, mode, modeSet, s)

/-! ### Sender state machine (`XMODEM.send`, lines 210-382) -/

/-- Result of the sender's start-sequence negotiation (lines 252-290). -/
inductive SendNegoR
  | canceled (s : Chan)
  | fail (s : Chan)
  | ok (crc_mode cancel : Nat) (s : Chan)
deriving DecidableEq, Repr

/-- The sender's start-sequence loop (lines 252-290): NAK selects
checksum mode, the CRC byte selects CRC mode, EOT fails immediately,
a second CAN cancels (`return None`), anything else (a first CAN
included) counts an error; past `retry` errors, abort and fail. -/
def sendNegotiate (retry : Nat) : Nat → Nat → Nat → Chan → Option SendNegoR
  | 0, _, _, _ => none
  | fuel + 1, error_count, cancel, s =>
    let (char, s) := chanGet 1 s
    if char = some [NAK] then some (.ok 0 cancel s)
    else if char = some [CRCB] then some (.ok 1 cancel s)
    else if char = some [CAN] then
      if cancel ≠ 0 then some (.canceled s)
      else if error_count + 1 > retry then some (.fail (abortSeq s))
      else sendNegotiate retry fuel (error_count + 1) 1 s
    else if char = some [EOT] then some (.fail s)
    else if error_count + 1 > retry then some (.fail (abortSeq s))
    else sendNegotiate retry fuel (error_count + 1) cancel s

/-- Result of the sender's per-block retransmission loop. -/
inductive BlockR
  | acked (success cancel : Nat) (s : Chan)
  | fail (s : Chan)
deriving DecidableEq, Repr

/-- The sender's per-block retransmission loop (lines 330-359), progress
callback omitted: transmit the packet, await one byte; ACK succeeds
(resetting the error counter); a CAN with the pending-cancel flag set
returns `False` immediately (no abort bytes); anything else counts an
error, retransmitting the identical packet, and past `retry` errors the
sender aborts and returns `False`. -/
def sendBlockLoop (retry : Nat) (packet : List Nat) :
    Nat → Nat → Nat → Nat → Chan → Option BlockR
  | 0, _, _, _, _ => none
  | fuel + 1, error_count, cancel, success_count, s =>
    let s := chanPut packet s
    let (char, s) := chanGet 1 s
    if char = some [ACK] then some (.acked (success_count + 1) cancel s)
    else if char = some [CAN] ∧ cancel ≠ 0 then some (.fail s)
    else
      let cancel := if char = some [CAN] then 1 else cancel
      if error_count + 1 > retry then some (.fail (abortSeq s))
      else sendBlockLoop retry packet fuel (error_count + 1) cancel success_count s

/-- The sender's EOT/ACK termination handshake (lines 364-382). -/
def sendEot (retry : Nat) : Nat → Nat → Chan → Option (Option Bool × Chan)
  | 0, _, _ => none
  | fuel + 1, error_count, s =>
    let s := chanPut [EOT] s
    let (char, s) := chanGet 1 s
    if char = some [ACK] then some (some true, s)
    else if error_count + 1 > retry then some (some false, abortSeq s)
    else sendEot retry fuel (error_count + 1) s

/-- The sender's streaming loop (lines 299-362): user-cancel check at
each block boundary; block 0 carries the `md5` string, later blocks read
`packet_size` bytes from the source; an empty read ends streaming and
enters the EOT handshake; each block is encoded once and pushed through
the per-block retransmission loop; the sequence number advances mod 256.
(`total_packets` only feeds the omitted progress callback.) -/
def sendStream (retry packet_size crc_mode pad : Nat) (md5 : List Nat) (canceled : Bool) :
    Nat → List Nat → Bool → Nat → Nat → Nat → Nat → Chan → Option (Option Bool × Chan)
  | 0, _, _, _, _, _, _, _ => none
  | fuel + 1, stream, md5Sent, sequence, success_count, error_count, cancel, s =>
    if canceled then
      let s := chanPut [CAN] (chanPut [CAN] (chanPut [CAN] s))
      some (none, drainTruthy s)
    else
      let data := if ¬ md5Sent ∧ sequence = 0 then md5 else stream.take packet_size
      let stream' := if ¬ md5Sent ∧ sequence = 0 then stream else stream.drop packet_size
      if data = [] then sendEot retry (retry + 2) error_count s
      else
        let packet := encode sequence data packet_size pad crc_mode
        match sendBlockLoop retry packet (retry + 2) error_count cancel success_count s with
        | none => none
        | some (.fail s) => some (some false, s)
        | some (.acked success cancel s) =>
          sendStream retry packet_size crc_mode pad md5 canceled fuel
            stream' true ((sequence + 1) % 256) success 0 cancel s

/-- `XMODEM.send` (lines 210-382): negotiation, streaming (block 0 being
the `md5` content-hash block), then the EOT handshake.  Returns the
Python return value (`True`/`False`/`None`) and the transport state. -/
def sendFull (retry : Nat) (mode : Mode) (pad : Nat) (md5 : List Nat)
    (canceled : Bool) (fuel : Nat) (stream : List Nat) (s : Chan) :
    Option (Option Bool × Chan) :=
  let packet_size := packetSize mode
  match sendNegotiate retry (2 * retry + 4) 0 0 s with
  | none => none
  | some (.canceled s) => some (none, s)
  | some (.fail s) => some (some false, s)
  | some (.ok crc_mode cancel s) =>
    sendStream retry packet_size crc_mode pad md5 canceled fuel stream false 0 0 0 cancel s

/-! ### Concrete scenarios -/

/-- A sample 32-byte content-hash string (32 times `'a'`). -/
def md5Sample : List Nat := List.replicate 32 97

/-- A 300-byte source payload. -/
def src300 : List Nat := (List.range 300).map (· % 256)

/-- The scripted reads a receiver performs for one sender packet, in the
chunks `recv` requests: start byte, the two sequence bytes, then the
marker+payload+trailer block. -/
def packetChunks (sequence : Nat) (content : List Nat) (ps pad crc : Nat) :
    List (Option (List Nat)) :=
  let pkt := encode sequence content ps pad crc
  [some (pkt.take 1), some [pkt.getD 1 0], some [pkt.getD 2 0], some (pkt.drop 3)]

/-- The error-free receive script for the 300-byte transfer in `xmodem`
mode (128-byte blocks, CRC): content-hash block 0, data blocks 1-3, then
EOT. -/
def script300 : List (Option (List Nat)) :=
  packetChunks 0 md5Sample 128 26 1
    ++ packetChunks 1 (src300.take 128) 128 26 1
    ++ packetChunks 2 ((src300.drop 128).take 128) 128 26 1
    ++ packetChunks 3 (src300.drop 256) 128 26 1
    ++ [some [EOT]]

/-- Receiving EOT at the top of the per-block loop sends ACK and returns
the current `income_size` accumulator. -/
lemma recvLoop_eot_step (retry ps is_stx crc : Nat) (md5 : List Nat)
    (fuel seq inc succ retr : Nat) (m5 : Bool) (s : Chan) :
    recvLoop retry ps is_stx crc md5 false (fuel + 1) (some [EOT]) seq inc succ retr m5 s
      = some (some (inc : Int), chanPut [ACK] s) := by
  simp [recvLoop, recvDispatch, EOT, SOH, STX, ACK]

/-- C2 (code bug): two consecutive CANs at a block-loop boundary do NOT
produce the documented Canceled value in either role.  The sender's
block loop (lines 340-343) returns `False` — its documented Failure
value (`send` docstring, lines 218-219: `None` is the canceled value) —
after transmitting the block twice and writing no abort bytes; the
receiver's block loop (lines 535-540) returns `None` — its documented
failure value (`recv` docstring, lines 412-413: `-1` is the canceled
value) — while its log claims cancellation, and it does so after the
FIRST CAN (the loop re-examines the unconsumed CAN with the
pending-cancel flag already set), never reading the second. -/
theorem C2_two_can_code_bug :
    ((sendFull 16 .xmodem 26 md5Sample false 10 src300
        ⟨[some [CRCB], some [CAN], some [CAN]], [], [], []⟩).map
      (fun r => (r.1, r.2.out))
      = some (some false,
          encode 0 md5Sample 128 26 1 ++ encode 0 md5Sample 128 26 1)) ∧
    (some false : Option Bool) ≠ none ∧
    ((recvFull 16 1 [] .xmodem8k false false 10
        ⟨[some [SOH], some [0], some [7], some [], none, some [CAN], some [CAN]],
          [], [], []⟩).map
      (fun r => (r.1, r.2.2.2.out, r.2.2.2.script))
      = some (none, [CRCB, NAK], [some [CAN]])) ∧
    (none : Option Int) ≠ some (-1) := by
  refine ⟨by decide, by decide, by decide, by decide⟩

/-- C3 counterexample: in the error-free 300-byte/128-block transfer the
receiver's sink receives exactly the 300 source bytes, but `recv`
returns 384 (`income_size` grows by the padded block size 128 per data
block, lines 623), not the 300 bytes written — so the returned count is
not the number of content bytes written to the sink. -/
theorem C3_counterexample :
    (recvFull 16 1 [] .xmodem8k false false 10 ⟨script300, [], [], []⟩).map
      (fun r => (r.1, r.2.2.2.sink))
      = some (some 384, src300) ∧
    src300.length = 300 ∧ (384 : Int) ≠ 300 := by
  refine ⟨by decide, by decide, by decide⟩

/-- C3 amended: EOT at the top of the per-block loop sends ACK and
returns the `income_size` accumulator, which counts the full padded
block size (`len(data) - 1 - is_stx = packet_size`) per accepted data
block rather than the content bytes written; in the error-free 300-byte
transfer the receiver writes exactly the 300 source bytes to the sink
and returns 384 = 3 * 128. -/
theorem C3_eot_byte_count :
    (∀ (retry ps is_stx crc : Nat) (md5 : List Nat)
      (fuel seq inc succ retr : Nat) (m5 : Bool) (s : Chan),
      recvLoop retry ps is_stx crc md5 false (fuel + 1) (some [EOT]) seq inc succ retr m5 s
        = some (some (inc : Int), chanPut [ACK] s)) ∧
    (recvFull 16 1 [] .xmodem8k false false 10 ⟨script300, [], [], []⟩).map
      (fun r => (r.1, r.2.2.2.out, r.2.2.2.sink))
      = some (some 384, [CRCB, ACK, ACK, ACK, ACK, ACK], src300) := by
  refine ⟨recvLoop_eot_step, by decide⟩

/-- C4: Content-hash short-circuit — from any per-block-loop state still
expecting block 0 (sequence 0, hash block not yet received), when the
transport presents a verifying block 0 whose hash region equals the
caller-supplied `md5`, `recv` emits the triple-CAN abort, drains pending
input, and returns 0 (`AlreadyUpToDate`), the sink receiving nothing and
no further blocks being read. -/
theorem C4_md5_short_circuit (retry packet_size is_stx crc_mode : Nat) (md5 : List Nat)
    (fuel income success retrans : Nat) (start body d : List Nat)
    (e4 : Option (List Nat)) (rest : List (Option (List Nat)))
    (out0 reads0 sink0 : List Nat)
    (hstart : start = [SOH] ∨ start = [STX])
    (hverify : verifyRecvChecksum crc_mode body = (true, d))
    (hmd5 : md5 = (d.drop (1 + is_stx)).take 32) :
    recvLoop retry packet_size is_stx crc_mode md5 false (fuel + 1) (some start)
        0 income success retrans false
        ⟨some [0] :: some [255] :: some body :: e4 :: rest, out0, reads0, sink0⟩
      = some (some 0, drainTruthy
          { script := e4 :: rest, out := out0 ++ [CAN, CAN, CAN],
            reads := reads0 ++ [1, 1, 1 + is_stx + packet_size + 1 + crc_mode],
            sink := sink0 }) ∧
    (drainTruthy
        { script := e4 :: rest, out := out0 ++ [CAN, CAN, CAN],
          reads := reads0 ++ [1, 1, 1 + is_stx + packet_size + 1 + crc_mode],
          sink := sink0 }).sink = sink0 := by
  refine ⟨?_, rfl⟩
  rcases hstart with h | h <;> subst h <;>
    simp [recvLoop, recvDispatch, chanGet, chanPut, SOH, STX, EOT, ACK, NAK, CAN,
      CRCB, hverify, hmd5]

/-- Witness for C4: a verifying CRC-mode block 0 carrying `md5Sample`. -/
theorem C4_md5_short_circuit_witness :
    (([SOH] : List Nat) = [SOH] ∨ ([SOH] : List Nat) = [STX]) ∧
    verifyRecvChecksum 1 ((encode 0 md5Sample 128 26 1).drop 3)
      = (true, ((encode 0 md5Sample 128 26 1).drop 3).take 129) ∧
    md5Sample = ((((encode 0 md5Sample 128 26 1).drop 3).take 129).drop (1 + 0)).take 32 ∧
    recvLoop 16 128 0 1 md5Sample false 1 (some [SOH]) 0 0 0 17 false
        ⟨[some [0], some [255], some ((encode 0 md5Sample 128 26 1).drop 3), none],
          [], [], []⟩
      = some (some 0, drainTruthy
          { script := [none], out := [CAN, CAN, CAN],
            reads := [1, 1, 131], sink := [] }) :=
  ⟨Or.inl rfl, by decide, by decide,
    (C4_md5_short_circuit 16 128 0 1 md5Sample 0 0 0 17 [SOH]
      ((encode 0 md5Sample 128 26 1).drop 3)
      (((encode 0 md5Sample 128 26 1).drop 3).take 129) none [] [] [] []
      (Or.inl rfl) (by decide) (by decide)).1⟩

/-- C10: Block-0 content never reaches the sink — from any
per-block-loop state still expecting block 0, a verifying block 0 is
never written to the sink and never counted: on a hash match the loop
returns 0 with the sink untouched, and on a mismatch it ACKs, advances
the expected sequence to 1 and marks the hash block received, leaving
the sink, the byte count and the success count unchanged. -/
theorem C10_block0_never_sinks (retry packet_size is_stx crc_mode : Nat) (md5 : List Nat)
    (fuel income success retrans : Nat) (start body d : List Nat)
    (e4 : Option (List Nat)) (rest : List (Option (List Nat)))
    (out0 reads0 sink0 : List Nat)
    (hstart : start = [SOH] ∨ start = [STX])
    (hverify : verifyRecvChecksum crc_mode body = (true, d)) :
    (md5 = (d.drop (1 + is_stx)).take 32 →
      recvLoop retry packet_size is_stx crc_mode md5 false (fuel + 1) (some start)
          0 income success retrans false
          ⟨some [0] :: some [255] :: some body :: e4 :: rest, out0, reads0, sink0⟩
        = some (some 0, drainTruthy
            { script := e4 :: rest, out := out0 ++ [CAN, CAN, CAN],
              reads := reads0 ++ [1, 1, 1 + is_stx + packet_size + 1 + crc_mode],
              sink := sink0 })) ∧
    (md5 ≠ (d.drop (1 + is_stx)).take 32 →
      recvLoop retry packet_size is_stx crc_mode md5 false (fuel + 1) (some start)
          0 income success retrans false
          ⟨some [0] :: some [255] :: some body :: e4 :: rest, out0, reads0, sink0⟩
        = recvLoop retry packet_size is_stx crc_mode md5 false fuel e4
            1 income success (retry + 1) true
            { script := rest, out := out0 ++ [ACK],
              reads := reads0 ++ [1, 1, 1 + is_stx + packet_size + 1 + crc_mode, 1],
              sink := sink0 }) := by
  constructor
  · intro hmd5
    rcases hstart with h | h <;> subst h <;>
      simp [recvLoop, recvDispatch, chanGet, chanPut, SOH, STX, EOT, ACK, NAK, CAN,
        CRCB, hverify, hmd5]
  · intro hmd5
    rcases hstart with h | h <;> subst h <;>
      simp [recvLoop, recvDispatch, chanGet, chanPut, SOH, STX, EOT, ACK, NAK, CAN,
        CRCB, hverify, hmd5]

/-- Witness for C10: the same verifying block 0 against a receiver whose
expected hash is empty (`md5 = ''`), the mismatch path of the 300-byte
scenario. -/
theorem C10_block0_never_sinks_witness :
    (([SOH] : List Nat) = [SOH] ∨ ([SOH] : List Nat) = [STX]) ∧
    verifyRecvChecksum 1 ((encode 0 md5Sample 128 26 1).drop 3)
      = (true, ((encode 0 md5Sample 128 26 1).drop 3).take 129) ∧
    ([] : List Nat) ≠ ((((encode 0 md5Sample 128 26 1).drop 3).take 129).drop (1 + 0)).take 32 ∧
    recvLoop 16 128 0 1 [] false 1 (some [SOH]) 0 0 0 17 false
        ⟨[some [0], some [255], some ((encode 0 md5Sample 128 26 1).drop 3), none],
          [], [], []⟩
      = recvLoop 16 128 0 1 [] false 0 none 1 0 0 17 true
          { script := [], out := [ACK], reads := [1, 1, 131, 1], sink := [] } :=
  ⟨Or.inl rfl, by decide, by decide,
    (C10_block0_never_sinks 16 128 0 1 [] 0 0 0 17 [SOH]
      ((encode 0 md5Sample 128 26 1).drop 3)
      (((encode 0 md5Sample 128 26 1).drop 3).take 129) none [] [] [] []
      (Or.inl rfl) (by decide)).2 (by decide)⟩

/-- When every transport response is neither ACK nor CAN (timeouts,
short reads and junk included), the sender's per-block loop transmits
the identical packet once per remaining error-budget step (`n = retry +
1 - error_count` transmissions) and then aborts and fails. -/
lemma sendBlockLoop_exhaust : ∀ (n retry : Nat) (packet : List Nat)
    (fuel error cancel success : Nat) (s : Chan),
    error + n = retry + 1 → error ≤ retry → n ≤ fuel →
    (∀ e ∈ s.script, e ≠ some [ACK] ∧ e ≠ some [CAN]) →
    sendBlockLoop retry packet fuel error cancel success s
      = some (.fail { script := s.script.drop n,
                      out := s.out ++ (List.replicate n packet).flatten ++ [CAN, CAN],
                      reads := s.reads ++ List.replicate n 1, sink := s.sink })
  | 0, retry, packet, fuel, error, cancel, success, s => by
    intro h1 h2
    omega
  | n + 1, retry, packet, fuel, error, cancel, success, s => by
    intro h1 h2 h3 hresp
    cases fuel with
    | zero => omega
    | succ f =>
      by_cases hb : error + 1 > retry
      · have hn : n = 0 := by omega
        subst hn
        cases hs : s.script with
        | nil =>
          simp [sendBlockLoop, chanGet, chanPut, hs, hb, abortSeq]
        | cons e rest =>
          have he := hresp e (by rw [hs]; exact List.mem_cons_self ..)
          simp [sendBlockLoop, chanGet, chanPut, hs, hb, abortSeq, he.1, he.2]
      · cases hs : s.script with
        | nil =>
          have ih := sendBlockLoop_exhaust n retry packet f (error + 1) cancel success
            { script := [], out := s.out ++ packet, reads := s.reads ++ [1],
              sink := s.sink }
            (by omega) (by omega) (by omega) (by simp)
          simp [sendBlockLoop, chanGet, chanPut, hs, hb, ih,
            List.replicate_succ, List.append_assoc]
        | cons e rest =>
          have he := hresp e (by rw [hs]; exact List.mem_cons_self ..)
          have ih := sendBlockLoop_exhaust n retry packet f (error + 1) cancel success
            { script := rest, out := s.out ++ packet, reads := s.reads ++ [1],
              sink := s.sink }
            (by omega) (by omega) (by omega)
            (fun x hx => hresp x (by rw [hs]; exact List.mem_cons_of_mem _ hx))
          simp [sendBlockLoop, chanGet, chanPut, hs, hb, ih, he.1, he.2,
            List.replicate_succ, List.append_assoc]

/-- C5 counterexample: with `retry = 2` and a transport answering CAN to
every transmission (CAN is a non-ACK response), the sender's block loop
returns `False` after only two transmissions of the packet — not
`retry + 1 = 3` — and writes no abort sequence, refuting the claim as
stated. -/
theorem C5_counterexample :
    sendBlockLoop 2 (encode 0 md5Sample 128 26 1) 10 0 0 0
        ⟨[some [CAN], some [CAN]], [], [], []⟩
      = some (.fail { script := [],
                      out := encode 0 md5Sample 128 26 1 ++ encode 0 md5Sample 128 26 1,
                      reads := [1, 1], sink := [] }) ∧
    encode 0 md5Sample 128 26 1 ++ encode 0 md5Sample 128 26 1
      ≠ (List.replicate 3 (encode 0 md5Sample 128 26 1)).flatten ++ [CAN, CAN] := by
  refine ⟨by decide, by decide⟩

/-- C5 amended: for every block whose transmissions all draw a non-ACK,
non-CAN response (or timeout), `send`'s per-block loop transmits the
identical packet exactly `retry + 1` times (not more, not fewer), then
emits the two-CAN abort sequence and returns `False` (`Failed`). -/
theorem C5_retry_exhaustion (retry : Nat) (packet : List Nat)
    (fuel success : Nat) (s : Chan)
    (hfuel : retry + 1 ≤ fuel)
    (hresp : ∀ e ∈ s.script, e ≠ some [ACK] ∧ e ≠ some [CAN]) :
    sendBlockLoop retry packet fuel 0 0 success s
      = some (.fail { script := s.script.drop (retry + 1),
                      out := s.out ++ (List.replicate (retry + 1) packet).flatten ++ [CAN, CAN],
                      reads := s.reads ++ List.replicate (retry + 1) 1, sink := s.sink }) :=
  sendBlockLoop_exhaust (retry + 1) retry packet fuel 0 0 success s
    (by omega) (by omega) hfuel hresp

/-- Witness for C5 at `retry = 2` with a timeout, junk and a short-read
response. -/
theorem C5_retry_exhaustion_witness :
    (2 + 1 ≤ 10) ∧
    (∀ e ∈ ([none, some [0], some []] : List (Option (List Nat))),
      e ≠ some [ACK] ∧ e ≠ some [CAN]) ∧
    sendBlockLoop 2 [9] 10 0 0 7 ⟨[none, some [0], some []], [], [], []⟩
      = some (.fail { script := [], out := [9, 9, 9, CAN, CAN],
                      reads := [1, 1, 1], sink := [] }) :=
  ⟨by decide, by decide,
    C5_retry_exhaustion 2 [9] 10 7 ⟨[none, some [0], some []], [], [], []⟩
      (by decide) (by decide)⟩

/-- C7 counterexample: on a sequence mismatch (128-byte blocks, CRC
mode) the receiver issues a single drain read of
`2 + packet_size + 1 + crc_mode = 132` bytes (line 597), which is
`block_capacity + trailer_size + 2`, not the claimed
`block_capacity + trailer_size + 1 = 131`. -/
theorem C7_counterexample :
    (recvLoop 2 128 0 1 [] false 5 (some [SOH]) 0 0 0 3 false
        ⟨[some [5], some [7], some (List.replicate 132 0), none], [], [], []⟩).map
      (fun r => r.2.reads)
      = some [1, 1, 132, 1, 1, 1, 1] ∧
    (2 + 128 + 1 + 1 : Nat) ≠ 128 + (1 + 1) + 1 := by
  refine ⟨by decide, by decide⟩

/-- C7 amended: whenever the two sequence-check bytes do not both equal
the expected sequence, the receiver discards exactly
`2 + block_capacity + 1 + crc_mode` further bytes with one read (line
597) and falls through to the retransmission-request step; when the
first sequence byte is missing it skips the second read and issues the
same single drain read. -/
theorem C7_mismatch_drain (retry packet_size is_stx crc_mode : Nat) (md5 : List Nat)
    (fuel seq income success retrans : Nat) (m5 : Bool) (start l1 l2 : List Nat)
    (e3 : Option (List Nat)) (rest : List (Option (List Nat)))
    (out0 reads0 sink0 : List Nat)
    (hstart : start = [SOH] ∨ start = [STX])
    (hmis : ¬ (l1.headD 0 = 255 - l2.headD 0 ∧ l1.headD 0 = seq)) :
    (recvLoop retry packet_size is_stx crc_mode md5 false (fuel + 1) (some start)
        seq income success retrans m5
        ⟨some l1 :: some l2 :: e3 :: rest, out0, reads0, sink0⟩
      = recvNakStep (fun c retrans s =>
          recvLoop retry packet_size is_stx crc_mode md5 false
            fuel c seq income success retrans m5 s) retrans
          { script := rest, out := out0,
            reads := reads0 ++ [1, 1, 2 + packet_size + 1 + crc_mode],
            sink := sink0 }) ∧
    (recvLoop retry packet_size is_stx crc_mode md5 false (fuel + 1) (some start)
        seq income success retrans m5
        ⟨none :: e3 :: rest, out0, reads0, sink0⟩
      = recvNakStep (fun c retrans s =>
          recvLoop retry packet_size is_stx crc_mode md5 false
            fuel c seq income success retrans m5 s) retrans
          { script := rest, out := out0,
            reads := reads0 ++ [1, 2 + packet_size + 1 + crc_mode],
            sink := sink0 }) := by
  constructor
  · rcases hstart with h | h <;> subst h <;>
      (simp [recvLoop, recvDispatch, chanGet, SOH, STX, EOT, ACK, NAK, CAN, CRCB] <;>
        exact fun h1 h2 => by
          have hmis' : ¬ (l1.head?.getD 0 = 255 - l2.head?.getD 0 ∧
              l1.head?.getD 0 = seq) := by
            simpa using hmis
          exact absurd (And.intro h1 h2) hmis')
  · rcases hstart with h | h <;> subst h <;>
      simp [recvLoop, recvDispatch, chanGet, SOH, STX, EOT, ACK, NAK, CAN, CRCB]

/-- Witness for C7: expected sequence 0 but sequence byte 5 received. -/
theorem C7_mismatch_drain_witness :
    (([SOH] : List Nat) = [SOH] ∨ ([SOH] : List Nat) = [STX]) ∧
    ¬ (([5] : List Nat).headD 0 = 255 - ([7] : List Nat).headD 0 ∧
        ([5] : List Nat).headD 0 = 0) ∧
    recvLoop 2 128 0 1 [] false 5 (some [SOH]) 0 0 0 3 false
        ⟨[some [5], some [7], some (List.replicate 132 0), none], [], [], []⟩
      = recvNakStep (fun c retrans s =>
          recvLoop 2 128 0 1 [] false 4 c 0 0 0 retrans false s) 3
          { script := [none], out := [], reads := [1, 1, 132], sink := [] } :=
  ⟨Or.inl rfl, by decide,
    (C7_mismatch_drain 2 128 0 1 [] 4 0 0 0 3 false [SOH] [5] [7]
      (some (List.replicate 132 0)) [none] [] [] []
      (Or.inl rfl) (by decide)).1⟩

/-- C9 counterexample: a `recv` call on a session with
`mode = 'xmodem8k'` and `mode_set = False` that sees SOH locks
`mode = 'xmodem'` and `mode_set = True` (lines 470-475), and these
persist on the session after the call returns — the fields do not equal
their values before the call. -/
theorem C9_counterexample :
    (recvFull 1 1 [] .xmodem8k false false 10 ⟨[some [SOH]], [], [], []⟩).map
      (fun r => (r.2.1, r.2.2.1))
      = some (.xmodem, true) ∧
    ((Mode.xmodem, true) : Mode × Bool) ≠ (.xmodem8k, false) := by
  refine ⟨by decide, by decide⟩

/-- The receiver negotiation when the first read returns SOH with
`mode_set` false and a positive retry budget: the mode locks to
`'xmodem'` and `mode_set` becomes true. -/
lemma recvNegotiate_soh (retry crcm : Nat) (mode : Mode) (f : Nat)
    (rest : List (Option (List Nat))) (out0 reads0 sink0 : List Nat)
    (hretry : 1 ≤ retry) :
    recvNegotiate retry (f + 1) 0 0 crcm mode false
        ⟨some [SOH] :: rest, out0, reads0, sink0⟩
      = some (.ok .xmodem true (if crcm ≠ 0 ∧ 0 < retry / 2 then crcm else 0)
          (some [SOH])
          ⟨rest, out0 ++ [if crcm ≠ 0 ∧ 0 < retry / 2 then CRCB else NAK],
            reads0 ++ [1], sink0⟩) := by
  have hr0 : ¬ (0 ≥ retry) := by omega
  by_cases hc : crcm ≠ 0 ∧ 0 < retry / 2 <;>
    simp [recvNegotiate, chanGet, chanPut, SOH, STX, CAN, CRCB, NAK, hr0, hc]

/-- C9 amended: `recv` does write session state across the call: when
the negotiation's first read returns SOH on a session with
`mode_set = False`, every completed `recv` call ends with the session
holding `mode = 'xmodem'` and `mode_set = True` (the lock persists until
`clear_mode_set` is called, line 195). -/
theorem C9_mode_lock_persists (retry : Nat) (md5 : List Nat) (mode : Mode)
    (canceled : Bool) (fuel : Nat) (rest : List (Option (List Nat)))
    (out0 reads0 sink0 : List Nat) (v : Option Int) (m : Mode) (ms : Bool) (t : Chan)
    (hretry : 1 ≤ retry)
    (h : recvFull retry 1 md5 mode false canceled fuel
        ⟨some [SOH] :: rest, out0, reads0, sink0⟩ = some (v, m, ms, t)) :
    m = .xmodem ∧ ms = true := by
  have hfuel : 2 * retry + 4 = (2 * retry + 3) + 1 := rfl
  unfold recvFull at h
  rw [hfuel, recvNegotiate_soh retry 1 mode (2 * retry + 3) rest out0 reads0 sink0 hretry] at h
  dsimp only at h
  split at h
  · exact absurd h (by simp)
  · simp only [Option.some.injEq, Prod.mk.injEq] at h
    exact ⟨h.2.1.symm, h.2.2.1.symm⟩

/-- Witness for C9 at a concrete completed `recv` call. -/
theorem C9_mode_lock_persists_witness :
    (1 ≤ (1 : Nat)) ∧ (Mode.xmodem = Mode.xmodem ∧ true = true) :=
  ⟨by decide,
    C9_mode_lock_persists 1 [] .xmodem8k false 10 [] [] [] [] none .xmodem true
      { script := [], out := [21, 21, 22, 22], reads := [1, 1, 131, 1, 1, 1], sink := [] }
      (by decide) (by decide)⟩

end XModem
